import Mathlib

/-!
# Kunetik character device: a verification development

Shallow embedding of `src/kunetik_core.c` and `src/ukunetik.h`.

* The device structure `struct kunetik_dev` becomes the record `kunetik_dev`
  (the fields that only hold operating-system objects, `devt`, `dev_class`,
  `device`, `cdev` and `waitqueue`, carry no data the entry points compute
  with and are left out).
* Every entry point takes the device state and returns the new state together
  with its return value; `file->private_data`, which `kdev_open` binds to the
  single device, is this explicit state argument.
* `__u8` values are natural numbers, reduced `% 256` where the C code stores a
  wider value into a byte. `int` values are integers.
* What the kernel supplies from outside (user memory, the random generator,
  signals, allocation results) is an explicit argument.
-/

namespace Kunetik

/-! ## Constants of the Linux headers -/

/-- Value of `ENOMEM` in errno-base.h. -/
def ENOMEM : Int := 12
/-- Value of `EAGAIN` in errno-base.h. -/
def EAGAIN : Int := 11
/-- Value of `EFAULT` in errno-base.h. -/
def EFAULT : Int := 14
/-- Value of `EBUSY` in errno-base.h. -/
def EBUSY : Int := 16
/-- Value of `EINVAL` in errno-base.h. -/
def EINVAL : Int := 22
/-- Value of `ERESTARTSYS` in linux/errno.h. -/
def ERESTARTSYS : Int := 512
/-- Value of `O_NONBLOCK` (octal 04000) in asm-generic/fcntl.h. -/
def O_NONBLOCK : Nat := 2048

/-- Direction bits of an ioctl number (asm-generic/ioctl.h). -/
def _IOC_NONE : Nat := 0
/-- Direction bits of an ioctl number (asm-generic/ioctl.h). -/
def _IOC_WRITE : Nat := 1
/-- Direction bits of an ioctl number (asm-generic/ioctl.h). -/
def _IOC_READ : Nat := 2

/-- The ioctl number encoding `_IOC(dir,type,nr,size)` of asm-generic/ioctl.h. -/
def _IOC (dir type nr size : Nat) : Nat :=
  (dir <<< 30) ||| (type <<< 8) ||| (nr <<< 0) ||| (size <<< 16)

/-- The macro `_IOW(type,nr,T)`, with `size = sizeof(T)`. -/
def _IOW (type nr size : Nat) : Nat := _IOC _IOC_WRITE type nr size
/-- The macro `_IOR(type,nr,T)`, with `size = sizeof(T)`. -/
def _IOR (type nr size : Nat) : Nat := _IOC _IOC_READ type nr size

/-! ## `ukunetik.h` -/

def KTK_TEMPTYPE_OFFSET : Nat := 0x00
def KTK_TEMP_OFFSET : Nat := 0x01
def KTK_HMDT_OFFSET : Nat := 0x02
def KTK_DATA_SIZE : Nat := 0x04

def KTK_TEMP_TYPE_CELCIUS : Nat := 0
def KTK_TEMP_TYPE_FAHRENHEIT : Nat := 1
def KTK_TEMP_TYPE_MAX : Nat := 2

/-- The payload `struct kunetik_temp_type`: one `__u8`. -/
structure kunetik_temp_type where
  type : Nat
deriving DecidableEq, Repr

/-- Size in bytes of `struct kunetik_temp_type`. -/
def sizeof_temp_type : Nat := 1

/-- The command `_IOW('V', 0, struct kunetik_temp_type)`; the character V is 86. -/
def KTK_SET_TEMP_TYPE : Nat := _IOW 86 0 sizeof_temp_type
/-- The command `_IOR('V', 1, struct kunetik_temp_type)`. -/
def KTK_GET_TEMP_TYPE : Nat := _IOR 86 1 sizeof_temp_type
/-- The command `_IO('V', 2)`, which expands to `_IOC(_IOC_NONE,'V',2,0)`. -/
def KTK_CAPTURE_DATA : Nat := _IOC _IOC_NONE 86 2 0

/-! ## `kunetik_core.c`: the device structure -/

/-- The data fields of `struct kunetik_dev`. -/
structure kunetik_dev where
  temp_type : kunetik_temp_type
  max_temp : Nat
  min_temp : Nat
  is_ready : Bool
  in_use : Bool
  device_data : List Nat
  data_size : Nat
deriving DecidableEq, Repr

/-- The open file: only `f_flags` is read by the driver. -/
structure file where
  f_flags : Nat
deriving DecidableEq, Repr

def KTK_MIN_TEMP_CELCIUS : Nat := 0x00
def KTK_MAX_TEMP_CELCIUS : Nat := 0x28
def KTK_MIN_TEMP_FAHRENHEIT : Nat := 0x20
def KTK_MAX_TEMP_FAHRENHEIT : Nat := 0x78

/-- The macro `__normalize(_x, _max, _min)`, evaluated in `int` after the
integer promotions: `(_x) % (1 + (_max) - (_min)) + (_min)`. The C remainder
truncates towards zero; a zero divisor has no defined result. -/
def __normalize (_x _max _min : Nat) : Option Int :=
  let d : Int := 1 + (_max : Int) - (_min : Int)
  if d = 0 then none else some (Int.tmod (_x : Int) d + (_min : Int))

/-- Conversion of an `int` to `__u8` on assignment. -/
def to_u8 (v : Int) : Nat := (v % 256).toNat

/-! ## Open and release -/

/-- The function `kdev_open`: return value and device state afterwards. -/
def kdev_open (kdev : kunetik_dev) : Int × kunetik_dev :=
  if kdev.in_use then
    (-EBUSY, kdev)
  else
    (0, { kdev with in_use := true })

/-- The function `kdev_release`: return value and device state afterwards. -/
def kdev_release (kdev : kunetik_dev) : Int × kunetik_dev :=
  if !kdev.in_use then
    (-EINVAL, kdev)
  else
    (0, { kdev with in_use := false })

/-! ## User memory -/

/-- The kernel primitive `copy_from_user` for the one-byte payload. `src` is the byte
readable at the user address, or `none` when the address faults; `dst` is the
content of the kernel destination after a copy that faults (indeterminate for
an uninitialised local; 0 on kernels that zero the bytes they could not
copy). Returns the number of bytes NOT copied and the destination afterwards. -/
def copy_from_user (dst : Nat) (src : Option Nat) : Nat × Nat :=
  match src with
  | some b => (0, b % 256)
  | none => (sizeof_temp_type, dst)

/-- The kernel primitive `copy_to_user(to, from, n)`, where `room` bytes can be written
at the user address `to`. Returns the number of bytes NOT copied and the
bytes that arrived in user memory. -/
def copy_to_user (room : Nat) (src : List Nat) (n : Nat) : Nat × List Nat :=
  (n - min n room, src.take (min n room))

/-! ## Configuration and capture -/

/-- The function `ktk_set_temp_type`: return value and device state afterwards. -/
def ktk_set_temp_type (kdev : kunetik_dev) (ltt : kunetik_temp_type) : Int × kunetik_dev :=
  if ltt.type = KTK_TEMP_TYPE_CELCIUS then
    (0, { kdev with max_temp := KTK_MAX_TEMP_CELCIUS, min_temp := KTK_MIN_TEMP_CELCIUS,
                    temp_type := { type := ltt.type } })
  else if ltt.type = KTK_TEMP_TYPE_FAHRENHEIT then
    (0, { kdev with max_temp := KTK_MAX_TEMP_FAHRENHEIT, min_temp := KTK_MIN_TEMP_FAHRENHEIT,
                    temp_type := { type := ltt.type } })
  else
    (-EINVAL, kdev)

/-- The function `ktk_capture_data`, where `rnd` are the two bytes `get_random_bytes`
generates. The result is `none` when `__normalize` divides by zero. -/
def ktk_capture_data (kdev : kunetik_dev) (rnd : Nat × Nat) : Option (Int × kunetik_dev) :=
  let kdev1 := { kdev with is_ready := false }
  let data1 := kdev1.device_data.set KTK_TEMPTYPE_OFFSET kdev1.temp_type.type
  let data2 := (data1.set KTK_TEMP_OFFSET (rnd.1 % 256)).set (KTK_TEMP_OFFSET + 1) (rnd.2 % 256)
  match __normalize (data2.getD KTK_TEMP_OFFSET 0) kdev1.max_temp kdev1.min_temp with
  | none => none
  | some v =>
    let data3 := data2.set KTK_TEMP_OFFSET (to_u8 v)
    some (0, { kdev1 with device_data := data3, is_ready := true })

/-! ## Read and write -/

/-- What ends the sleep of `wait_event_interruptible` on the device wait queue:
a signal delivered to the sleeping caller, or a run of `ktk_capture_data` in
another context (the only code that raises `is_ready` and wakes the queue),
with the two bytes that run generates. -/
inductive wait_event where
  | signal
  | capture (rnd : Nat × Nat)
deriving DecidableEq, Repr

/-- The kernel macro `wait_event_interruptible(kdev->waitqueue, kdev->is_ready)`: returns 0
at once when the condition holds, `-ERESTARTSYS` when a signal ends the sleep,
and 0 after the capture that wakes the queue. -/
def wait_event_interruptible (kdev : kunetik_dev) (w : wait_event) :
    Option (Int × kunetik_dev) :=
  if kdev.is_ready then some (0, kdev)
  else
    match w with
    | .signal => some (-ERESTARTSYS, kdev)
    | .capture rnd =>
      match ktk_capture_data kdev rnd with
      | none => none
      | some (_, kdev1) => some (0, kdev1)

/-- Outcome of `kdev_read`: the return value, the device state afterwards and
the bytes that arrived in the caller buffer `ubuf`. -/
structure read_result where
  ret : Int
  kdev : kunetik_dev
  ubuf : List Nat
deriving DecidableEq, Repr

/-- The second half of `kdev_read`, from the clamp of `len` on. `room` is the
number of bytes that can be written at `ubuf`. -/
def kdev_read_copy (kdev : kunetik_dev) (room len : Nat) : read_result :=
  let len := if len > kdev.data_size then kdev.data_size else len
  let c := copy_to_user room kdev.device_data len
  if c.1 ≠ 0 then
    { ret := -EFAULT, kdev := kdev, ubuf := c.2 }
  else
    { ret := (len : Int), kdev := kdev, ubuf := c.2 }

/-- The function `kdev_read`. The result is `none` only when the capture that
ends a blocking wait divides by zero. -/
def kdev_read (kdev : kunetik_dev) (f : file) (room len : Nat) (w : wait_event) :
    Option read_result :=
  if !kdev.is_ready then
    if (f.f_flags &&& O_NONBLOCK) > 0 then
      some { ret := -EAGAIN, kdev := kdev, ubuf := [] }
    else
      match wait_event_interruptible kdev w with
      | none => none
      | some (r, kdev1) =>
        if r ≠ 0 then
          some { ret := -ERESTARTSYS, kdev := kdev1, ubuf := [] }
        else
          some (kdev_read_copy kdev1 room len)
  else
    some (kdev_read_copy kdev room len)

/-- The function `kdev_write`: the payload and its length are ignored. -/
def kdev_write (kdev : kunetik_dev) (_ubuf : List Nat) (_len : Nat) : Int × kunetik_dev :=
  (-EFAULT, kdev)

/-! ## Control commands -/

/-- The user address passed as `arg` of an ioctl: the byte that can be read
there (`none` when reading faults) and the number of bytes that can be
written there. -/
structure user_arg where
  src : Option Nat
  room : Nat
deriving DecidableEq, Repr

/-- Outcome of `kdev_ioctl`: the return value, the device state afterwards and
the bytes that arrived at the user address `arg`. -/
structure ioctl_result where
  rv : Int
  kdev : kunetik_dev
  uarg : List Nat
deriving DecidableEq, Repr

/-- The C assignment `x = v` to a variable that holds `old`: the old value is lost. -/
@[simp]
def assign (_old v : Int) : Int := v

/-- The function `kdev_ioctl`. `stack` is what the local `temp_type` holds when the
copy from the caller faults; `rnd` are the bytes a capture generates. In the
`KTK_SET_TEMP_TYPE` case the value `-EFAULT` assigned to `rv` after a failed
copy is overwritten by the result of `ktk_set_temp_type`, as in the source. -/
def kdev_ioctl (kdev : kunetik_dev) (cmd : Nat) (arg : user_arg) (stack : Nat)
    (rnd : Nat × Nat) : Option ioctl_result :=
  if cmd = KTK_SET_TEMP_TYPE then
    let c := copy_from_user stack arg.src
    let temp_type : kunetik_temp_type := { type := c.2 }
    let rv : Int := if c.1 ≠ 0 then -EFAULT else 0
    let s := ktk_set_temp_type kdev temp_type
    let rv : Int := assign rv s.1
    some { rv := rv, kdev := s.2, uarg := [] }
  else if cmd = KTK_GET_TEMP_TYPE then
    let c := copy_to_user arg.room [kdev.temp_type.type] sizeof_temp_type
    let rv : Int := if c.1 ≠ 0 then -EFAULT else 0
    some { rv := rv, kdev := kdev, uarg := c.2 }
  else if cmd = KTK_CAPTURE_DATA then
    match ktk_capture_data kdev rnd with
    | none => none
    | some (rv, kdev1) => some { rv := rv, kdev := kdev1, uarg := [] }
  else
    some { rv := -EINVAL, kdev := kdev, uarg := [] }

/-! ## Initialisation -/

/-- Results of the kernel services `kdev_init` calls: whether `class_create`
and `device_create` return a usable object, the return values of
`alloc_chrdev_region` and `cdev_add`, and whether `kzalloc` of the sample
buffer succeeds. -/
structure init_env where
  class_create : Bool
  alloc_chrdev_region : Int
  cdev_add : Int
  device_create : Bool
  kzalloc : Bool
deriving DecidableEq, Repr

/-- The function `kdev_init`: return value and device state afterwards. A failed
allocation of the buffer leaves `device_data` null, here the empty list. -/
def kdev_init (kdev : kunetik_dev) (env : init_env) : Int × kunetik_dev :=
  if !env.class_create then (-ENOMEM, kdev)
  else if env.alloc_chrdev_region ≠ 0 then (env.alloc_chrdev_region, kdev)
  else if env.cdev_add ≠ 0 then (env.cdev_add, kdev)
  else if !env.device_create then (-ENOMEM, kdev)
  else
    let kdev1 := { kdev with
      temp_type := { type := KTK_TEMP_TYPE_CELCIUS },
      is_ready := false,
      in_use := false,
      max_temp := KTK_MAX_TEMP_CELCIUS,
      min_temp := KTK_MIN_TEMP_CELCIUS,
      data_size := KTK_DATA_SIZE % 256 }
    if !env.kzalloc then (-ENOMEM, { kdev1 with device_data := [] })
    else (0, { kdev1 with device_data := List.replicate kdev1.data_size 0 })

/-- The zero-filled device structure `kzalloc(sizeof(struct kunetik_dev))` returns. -/
def kzalloc_kunetik_dev : kunetik_dev :=
  { temp_type := { type := 0 }, max_temp := 0, min_temp := 0, is_ready := false,
    in_use := false, device_data := [], data_size := 0 }

/-- The function `kunetik_init`: the module is loaded with a device exactly when the
structure is allocated and `kdev_init` returns 0. -/
def kunetik_init (kzalloc_ok : Bool) (env : init_env) : Int × Option kunetik_dev :=
  if !kzalloc_ok then (-ENOMEM, none)
  else
    let r := kdev_init kzalloc_kunetik_dev env
    if r.1 ≠ 0 then (r.1, none) else (0, some r.2)

/-! ## Sequences of operations -/

/-- One call of an entry point of `fops`, with everything the kernel supplies. -/
inductive Op where
  | fop_open
  | fop_release
  | fop_read (f : file) (room len : Nat) (w : wait_event)
  | fop_write (ubuf : List Nat) (len : Nat)
  | fop_ioctl (cmd : Nat) (arg : user_arg) (stack : Nat) (rnd : Nat × Nat)
deriving DecidableEq, Repr

/-- Device state after one operation (`none` when the operation traps). -/
def step (kdev : kunetik_dev) : Op → Option kunetik_dev
  | .fop_open => some (kdev_open kdev).2
  | .fop_release => some (kdev_release kdev).2
  | .fop_read f room len w => (kdev_read kdev f room len w).map (fun r => r.kdev)
  | .fop_write ubuf len => some (kdev_write kdev ubuf len).2
  | .fop_ioctl cmd arg stack rnd => (kdev_ioctl kdev cmd arg stack rnd).map (fun r => r.kdev)

/-- Device state after a sequence of operations. -/
def run (kdev : kunetik_dev) : List Op → Option kunetik_dev
  | [] => some kdev
  | op :: ops =>
    match step kdev op with
    | none => none
    | some kdev1 => run kdev1 ops

/-- The device states reachable from a successful module initialisation by
any sequence of open, release, read, write and control operations. -/
inductive Reachable : kunetik_dev → Prop where
  | init (ok : Bool) (env : init_env) (s : kunetik_dev) :
      kunetik_init ok env = (0, some s) → Reachable s
  | step (s : kunetik_dev) (op : Op) (t : kunetik_dev) :
      Reachable s → step s op = some t → Reachable t

/-- All services succeed during initialisation. -/
def init_env_ok : init_env :=
  { class_create := true, alloc_chrdev_region := 0, cdev_add := 0,
    device_create := true, kzalloc := true }

/-- The device state right after a successful `kunetik_init`. -/
def kdev0 : kunetik_dev :=
  { temp_type := { type := 0 }, max_temp := 40, min_temp := 0, is_ready := false,
    in_use := false, device_data := [0, 0, 0, 0], data_size := 4 }

/-- The fixed table of the specification: Celsius (tag 0) has range [0, 40],
Fahrenheit (tag 1) has range [32, 120]; the pair is (min, max). -/
def spec_range : Nat → Option (Nat × Nat)
  | 0 => some (0, 40)
  | 1 => some (32, 120)
  | _ => none

/-- What initialisation establishes and every operation keeps: the buffer has
`KTK_DATA_SIZE` bytes with the reserved byte 0, and the stored range is the
table entry of the stored unit. -/
def Inv (s : kunetik_dev) : Prop :=
  s.data_size = KTK_DATA_SIZE ∧
  (∃ a b c, s.device_data = [a, b, c, 0]) ∧
  spec_range s.temp_type.type = some (s.min_temp, s.max_temp)

/-- The device right after `SetUnit(1)` on the freshly initialised device. -/
def kdev_fahrenheit : kunetik_dev :=
  { kdev0 with temp_type := { type := 1 }, max_temp := 120, min_temp := 32 }

/-- The sample buffer as `kdev_init` allocates it: `data_size` is
`KTK_DATA_SIZE` and `device_data` holds that many bytes. No entry point
changes either. -/
def Allocated (s : kunetik_dev) : Prop :=
  s.data_size = KTK_DATA_SIZE ∧ s.device_data.length = KTK_DATA_SIZE

/-- An operation that is not the control command `KTK_CAPTURE_DATA`. -/
def capture_free : Op → Bool
  | .fop_ioctl cmd _ _ _ => cmd != KTK_CAPTURE_DATA
  | _ => true

/-! ## Interleaving of one capture with concurrent reads

The driver takes no lock, so the statements of `ktk_capture_data` and of
concurrent calls of `kdev_read` interleave. The capture and every read are
cut at their statements; one scheduling event runs one statement of one of
them on the shared device structure. -/

/-- The statements of `ktk_capture_data` in program order, `pc` being the number of
statements already executed: 0 drops `is_ready`, 1 stores the unit tag, 2 is
`get_random_bytes`, 3 normalises the measurement, 4 raises `is_ready` and
wakes the queue; at 5 the function has returned. -/
def capture_stmt (pc : Nat) (kdev : kunetik_dev) (rnd : Nat × Nat) : Option kunetik_dev :=
  match pc with
  | 0 => some { kdev with is_ready := false }
  | 1 => some { kdev with
      device_data := kdev.device_data.set KTK_TEMPTYPE_OFFSET kdev.temp_type.type }
  | 2 => some { kdev with
      device_data := (kdev.device_data.set KTK_TEMP_OFFSET (rnd.1 % 256)).set
        (KTK_TEMP_OFFSET + 1) (rnd.2 % 256) }
  | 3 =>
    match __normalize (kdev.device_data.getD KTK_TEMP_OFFSET 0) kdev.max_temp kdev.min_temp with
    | none => none
    | some v => some { kdev with device_data := kdev.device_data.set KTK_TEMP_OFFSET (to_u8 v) }
  | 4 => some { kdev with is_ready := true }
  | _ => none

/-- Device state after the first `n` statements of a capture. -/
def capture_after (kdev : kunetik_dev) (rnd : Nat × Nat) : Nat → Option kunetik_dev
  | 0 => some kdev
  | n + 1 =>
    match capture_after kdev rnd n with
    | none => none
    | some k => capture_stmt n k rnd

/-- Where a call of `kdev_read` stands: at the test of `is_ready`, asleep in
`wait_event_interruptible`, past the test and about to clamp `len` and copy,
or returned with its return value and the bytes delivered to the caller. -/
inductive read_pc where
  | test
  | asleep
  | copy
  | done (ret : Int) (ubuf : List Nat)
deriving DecidableEq, Repr

/-- A call of `kdev_read` in progress: its arguments and where it stands. -/
structure reader where
  f : file
  room : Nat
  len : Nat
  pc : read_pc
deriving DecidableEq, Repr

/-- One statement of `kdev_read` run on the current device state. -/
def reader_stmt (kdev : kunetik_dev) (r : reader) : reader :=
  match r.pc with
  | .test =>
    if !kdev.is_ready then
      if (r.f.f_flags &&& O_NONBLOCK) > 0 then { r with pc := .done (-EAGAIN) [] }
      else { r with pc := .asleep }
    else { r with pc := .copy }
  | .asleep => if kdev.is_ready then { r with pc := .copy } else r
  | .copy =>
    let res := kdev_read_copy kdev r.room r.len
    { r with pc := .done res.ret res.ubuf }
  | .done _ _ => r

/-- A signal delivered to a read: it ends the sleep with `-ERESTARTSYS`. -/
def reader_signal (r : reader) : reader :=
  match r.pc with
  | .asleep => { r with pc := .done (-ERESTARTSYS) [] }
  | _ => r

/-- The shared device, the capture in progress (statements executed so far
and the bytes it generates) and the reads in progress. -/
structure config where
  kdev : kunetik_dev
  cap : Nat
  rnd : Nat × Nat
  readers : List reader
deriving DecidableEq, Repr

/-- One scheduling decision: the capture runs its next statement, read `i` runs
its next statement, or a signal reaches read `i`. -/
inductive event where
  | capture
  | read (i : Nat)
  | signal (i : Nat)
deriving DecidableEq, Repr

/-- One scheduling step (`none` when the chosen context cannot run). -/
def sys_step (c : config) : event → Option config
  | .capture =>
    match capture_stmt c.cap c.kdev c.rnd with
    | none => none
    | some k => some { c with kdev := k, cap := c.cap + 1 }
  | .read i =>
    match c.readers[i]? with
    | none => none
    | some r => some { c with readers := c.readers.set i (reader_stmt c.kdev r) }
  | .signal i =>
    match c.readers[i]? with
    | none => none
    | some r => some { c with readers := c.readers.set i (reader_signal r) }

/-- A schedule run from a configuration. -/
def sys_run (c : config) : List event → Option config
  | [] => some c
  | e :: es =>
    match sys_step c e with
    | none => none
    | some c1 => sys_run c1 es

/-- A read that has not yet passed its readiness test. -/
def before_test (r : reader) : Bool :=
  match r.pc with
  | .test => true
  | .asleep => true
  | _ => false

/-- The freshly initialised device after a successful open. -/
def kdev_opened : kunetik_dev :=
  { kdev0 with in_use := true }

/-- A device holding a completed Celsius sample. -/
def kdev_sampled : kunetik_dev :=
  { kdev0 with is_ready := true, device_data := [0, 36, 77, 0] }

/-- What a read may be doing while the capture that started from `s` with bytes
`rnd` has executed `cap` statements: before its test anything goes; it is
past the test only once the capture has returned; and what it delivered is
a prefix of the completed sample, empty unless the capture has returned. -/
def reader_ok (s : kunetik_dev) (rnd : Nat × Nat) (cap : Nat) (r : reader) : Prop :=
  match r.pc with
  | .test => True
  | .asleep => True
  | .copy => cap = 5
  | .done _ ubuf =>
    (ubuf = [] ∨ cap = 5) ∧
      ∀ final, capture_after s rnd 5 = some final → ubuf <+: final.device_data

/-- The invariant of a capture from `s` with bytes `rnd` that has dropped readiness. -/
def safe_inv (s : kunetik_dev) (rnd : Nat × Nat) (c : config) : Prop :=
  c.rnd = rnd ∧ 1 ≤ c.cap ∧ c.cap ≤ 5 ∧ capture_after s rnd c.cap = some c.kdev ∧
    ∀ r ∈ c.readers, reader_ok s rnd c.cap r

/-! ## Shared lemmas -/

theorem spec_range_cases {t mn mx : Nat} (h : spec_range t = some (mn, mx)) :
    (t = 0 ∧ mn = 0 ∧ mx = 40) ∨ (t = 1 ∧ mn = 32 ∧ mx = 120) := by
  match t, h with
  | 0, h => simp [spec_range] at h; omega
  | 1, h => simp [spec_range] at h; omega
  | _ + 2, h => simp [spec_range] at h

theorem normalize_of_le (x mx mn : Nat) (h : mn ≤ mx) :
    __normalize x mx mn = some ((x % (mx - mn + 1) + mn : Nat) : Int) := by
  unfold __normalize
  have hd : (1 + (mx : Int) - (mn : Int)) = ((mx - mn + 1 : Nat) : Int) := by
    push_cast [Nat.cast_sub h]; ring
  simp only [hd]
  have hne : ¬ (((mx - mn + 1 : Nat) : Int) = 0) := by
    have : mx - mn + 1 ≠ 0 := Nat.succ_ne_zero (mx - mn)
    exact_mod_cast this
  rw [if_neg hne, ← Int.ofNat_tmod]
  push_cast
  rfl

theorem to_u8_of_lt (n : Nat) (h : n < 256) : to_u8 (n : Int) = n := by
  unfold to_u8
  have : ((n : Int) % 256) = ((n % 256 : Nat) : Int) := by push_cast; rfl
  rw [this, Nat.mod_eq_of_lt h]
  simp

theorem capture_eq (s : kunetik_dev) (a b c : Nat) (hd : s.device_data = [a, b, c, 0])
    (hr : spec_range s.temp_type.type = some (s.min_temp, s.max_temp)) (rnd : Nat × Nat) :
    ktk_capture_data s rnd = some (0, { s with
      device_data := [s.temp_type.type,
        (rnd.1 % 256) % (s.max_temp - s.min_temp + 1) + s.min_temp, rnd.2 % 256, 0],
      is_ready := true }) := by
  have hle : s.min_temp ≤ s.max_temp := by
    rcases spec_range_cases hr with ⟨_, h1, h2⟩ | ⟨_, h1, h2⟩ <;> omega
  have hlt : (rnd.1 % 256) % (s.max_temp - s.min_temp + 1) + s.min_temp < 256 := by
    rcases spec_range_cases hr with ⟨_, h1, h2⟩ | ⟨_, h1, h2⟩ <;> rw [h1, h2] <;> omega
  simp only [ktk_capture_data, hd, KTK_TEMPTYPE_OFFSET, KTK_TEMP_OFFSET, List.set,
    List.getD_cons_succ, List.getD_cons_zero, normalize_of_le _ _ _ hle, to_u8_of_lt _ hlt]

theorem kunetik_init_ok {ok : Bool} {env : init_env} {s : kunetik_dev}
    (h : kunetik_init ok env = (0, some s)) : s = kdev0 := by
  unfold kunetik_init at h
  split at h
  · simp [ENOMEM] at h
  · simp only at h
    split at h
    · simp at h
    · rename_i hz
      simp only [Prod.mk.injEq, Option.some.injEq, true_and] at h
      rw [← h]
      unfold kdev_init at hz ⊢
      split
      · rename_i hc; simp [hc, ENOMEM] at hz
      · split
        · rename_i hc1 hc2; simp [hc1, hc2] at hz
        · split
          · rename_i hc1 hc2 hc3; simp [hc1, hc2, hc3] at hz
          · split
            · rename_i hc1 hc2 hc3 hc4; simp [hc1, hc2, hc3, hc4, ENOMEM] at hz
            · split
              · rename_i hc1 hc2 hc3 hc4 hc5
                simp [hc1, hc2, hc3, hc4, hc5, ENOMEM] at hz
              · rfl

theorem inv_kdev0 : Inv kdev0 :=
  ⟨rfl, ⟨0, 0, 0, rfl⟩, rfl⟩

theorem inv_open {s : kunetik_dev} (h : Inv s) : Inv (kdev_open s).2 := by
  unfold kdev_open
  split <;> exact h

theorem inv_release {s : kunetik_dev} (h : Inv s) : Inv (kdev_release s).2 := by
  unfold kdev_release
  split <;> exact h

theorem inv_set_temp_type {s : kunetik_dev} (h : Inv s) (ltt : kunetik_temp_type) :
    Inv (ktk_set_temp_type s ltt).2 := by
  obtain ⟨h1, h2, h3⟩ := h
  unfold ktk_set_temp_type
  split
  · rename_i ht
    exact ⟨h1, h2, by simp [ht, KTK_TEMP_TYPE_CELCIUS, spec_range, KTK_MIN_TEMP_CELCIUS,
      KTK_MAX_TEMP_CELCIUS]⟩
  · split
    · rename_i ht
      exact ⟨h1, h2, by simp [ht, KTK_TEMP_TYPE_FAHRENHEIT, spec_range, KTK_MIN_TEMP_FAHRENHEIT,
        KTK_MAX_TEMP_FAHRENHEIT]⟩
    · exact ⟨h1, h2, h3⟩

theorem inv_capture {s t : kunetik_dev} {rv : Int} {rnd : Nat × Nat} (h : Inv s)
    (hc : ktk_capture_data s rnd = some (rv, t)) : Inv t := by
  obtain ⟨h1, ⟨a, b, c, h2⟩, h3⟩ := h
  rw [capture_eq s a b c h2 h3 rnd] at hc
  simp only [Option.some.injEq, Prod.mk.injEq] at hc
  rw [← hc.2]
  exact ⟨h1, ⟨_, _, _, rfl⟩, h3⟩

theorem capture_ready {s t : kunetik_dev} {rv : Int} {rnd : Nat × Nat}
    (hc : ktk_capture_data s rnd = some (rv, t)) : t.is_ready = true := by
  unfold ktk_capture_data at hc
  simp only at hc
  split at hc
  · simp at hc
  · simp only [Option.some.injEq, Prod.mk.injEq] at hc
    rw [← hc.2]

theorem read_copy_kdev (s : kunetik_dev) (room len : Nat) :
    (kdev_read_copy s room len).kdev = s := by
  unfold kdev_read_copy
  simp only
  split <;> split <;> rfl

theorem read_ready (s : kunetik_dev) (f : file) (room len : Nat) (w : wait_event)
    (hready : s.is_ready = true) :
    kdev_read s f room len w = some (kdev_read_copy s room len) := by
  simp [kdev_read, hready]

theorem read_nonblock (s : kunetik_dev) (f : file) (room len : Nat) (w : wait_event)
    (hready : s.is_ready = false) (hf : (f.f_flags &&& O_NONBLOCK) > 0) :
    kdev_read s f room len w = some { ret := -EAGAIN, kdev := s, ubuf := [] } := by
  simp [kdev_read, hready, hf]

theorem read_signal (s : kunetik_dev) (f : file) (room len : Nat)
    (hready : s.is_ready = false) (hf : ¬ (f.f_flags &&& O_NONBLOCK) > 0) :
    kdev_read s f room len .signal = some { ret := -ERESTARTSYS, kdev := s, ubuf := [] } := by
  simp [kdev_read, wait_event_interruptible, hready, hf, ERESTARTSYS]

theorem read_woken (s : kunetik_dev) (f : file) (room len : Nat) (rnd : Nat × Nat)
    (hready : s.is_ready = false) (hf : ¬ (f.f_flags &&& O_NONBLOCK) > 0) :
    kdev_read s f room len (.capture rnd) =
      (ktk_capture_data s rnd).map (fun p => kdev_read_copy p.2 room len) := by
  cases hc : ktk_capture_data s rnd with
  | none => simp [kdev_read, wait_event_interruptible, hready, hf, hc]
  | some p => simp [kdev_read, wait_event_interruptible, hready, hf, hc]

theorem inv_read {s : kunetik_dev} {f : file} {room len : Nat} {w : wait_event}
    {r : read_result} (h : Inv s) (hr : kdev_read s f room len w = some r) : Inv r.kdev := by
  cases hready : s.is_ready with
  | true =>
    rw [read_ready s f room len w hready] at hr
    obtain rfl := Option.some.inj hr
    rw [read_copy_kdev]; exact h
  | false =>
    by_cases hf : (f.f_flags &&& O_NONBLOCK) > 0
    · rw [read_nonblock s f room len w hready hf] at hr
      obtain rfl := Option.some.inj hr
      exact h
    · cases w with
      | signal =>
        rw [read_signal s f room len hready hf] at hr
        obtain rfl := Option.some.inj hr
        exact h
      | capture rnd =>
        rw [read_woken s f room len rnd hready hf] at hr
        cases hc : ktk_capture_data s rnd with
        | none => simp [hc] at hr
        | some p =>
          obtain ⟨rv, t⟩ := p
          simp only [hc, Option.map_some', Option.some.injEq] at hr
          rw [← hr, read_copy_kdev]
          exact inv_capture h hc

theorem inv_ioctl {s : kunetik_dev} {cmd : Nat} {arg : user_arg} {stack : Nat}
    {rnd : Nat × Nat} {r : ioctl_result} (h : Inv s)
    (hr : kdev_ioctl s cmd arg stack rnd = some r) : Inv r.kdev := by
  unfold kdev_ioctl at hr
  split at hr
  · simp only [Option.some.injEq] at hr
    rw [← hr]; exact inv_set_temp_type h _
  · split at hr
    · simp only [Option.some.injEq] at hr
      rw [← hr]; exact h
    · split at hr
      · cases hc : ktk_capture_data s rnd with
        | none => simp [hc] at hr
        | some p =>
          obtain ⟨rv, t⟩ := p
          simp only [hc, Option.some.injEq] at hr
          rw [← hr]; exact inv_capture h hc
      · simp only [Option.some.injEq] at hr
        rw [← hr]; exact h

theorem inv_step {s t : kunetik_dev} {op : Op} (h : Inv s) (hs : step s op = some t) :
    Inv t := by
  cases op with
  | fop_open =>
    simp only [step, Option.some.injEq] at hs
    rw [← hs]; exact inv_open h
  | fop_release =>
    simp only [step, Option.some.injEq] at hs
    rw [← hs]; exact inv_release h
  | fop_read f room len w =>
    cases hr : kdev_read s f room len w with
    | none => simp [step, hr] at hs
    | some r =>
      simp only [step, hr, Option.map_some', Option.some.injEq] at hs
      rw [← hs]; exact inv_read h hr
  | fop_write ubuf len =>
    simp only [step, kdev_write, Option.some.injEq] at hs
    rw [← hs]; exact h
  | fop_ioctl cmd arg stack rnd =>
    cases hr : kdev_ioctl s cmd arg stack rnd with
    | none => simp [step, hr] at hs
    | some r =>
      simp only [step, hr, Option.map_some', Option.some.injEq] at hs
      rw [← hs]; exact inv_ioctl h hr

theorem reachable_inv {s : kunetik_dev} (h : Reachable s) : Inv s := by
  induction h with
  | init ok env s hi => rw [kunetik_init_ok hi]; exact inv_kdev0
  | step s op t _ hs ih => exact inv_step ih hs

theorem reachable_kdev0 : Reachable kdev0 :=
  Reachable.init true init_env_ok kdev0 (by decide)

theorem reachable_kdev_fahrenheit : Reachable kdev_fahrenheit :=
  Reachable.step kdev0 (.fop_ioctl KTK_SET_TEMP_TYPE ⟨some 1, 0⟩ 0 (0, 0)) kdev_fahrenheit
    reachable_kdev0 (by decide)

theorem read_copy_ok (s : kunetik_dev) (room len : Nat) (ha : Allocated s)
    (hc : (copy_to_user room s.device_data (min len KTK_DATA_SIZE)).1 = 0) :
    kdev_read_copy s room len =
      { ret := ((min len KTK_DATA_SIZE : Nat) : Int), kdev := s,
        ubuf := s.device_data.take (min len KTK_DATA_SIZE) } := by
  obtain ⟨h1, _⟩ := ha
  have hn : (if len > s.data_size then s.data_size else len) = min len KTK_DATA_SIZE := by
    rw [h1]; split <;> omega
  simp only [copy_to_user] at hc
  have hroom : min (min len KTK_DATA_SIZE) room = min len KTK_DATA_SIZE := by omega
  unfold kdev_read_copy
  simp only [hn, copy_to_user, hroom, Nat.sub_self, ne_eq, not_true_eq_false, if_false]

theorem step_capture_free (s : kunetik_dev) (op : Op) (hready : s.is_ready = true)
    (hop : capture_free op = true) :
    ∃ t, step s op = some t ∧ t.device_data = s.device_data ∧ t.is_ready = true ∧
      t.data_size = s.data_size := by
  cases op with
  | fop_open =>
    refine ⟨_, rfl, ?_⟩
    unfold kdev_open; split <;> simp [hready]
  | fop_release =>
    refine ⟨_, rfl, ?_⟩
    unfold kdev_release; split <;> simp [hready]
  | fop_read f room len w =>
    refine ⟨s, ?_, rfl, hready, rfl⟩
    simp [step, read_ready s f room len w hready, read_copy_kdev]
  | fop_write ubuf len => exact ⟨s, rfl, rfl, hready, rfl⟩
  | fop_ioctl cmd arg stack rnd =>
    have hcmd : cmd ≠ KTK_CAPTURE_DATA := by simpa [capture_free] using hop
    by_cases h1 : cmd = KTK_SET_TEMP_TYPE
    · refine ⟨(ktk_set_temp_type s { type := (copy_from_user stack arg.src).2 }).2, ?_, ?_⟩
      · simp [step, kdev_ioctl, h1]
      · unfold ktk_set_temp_type
        split
        · exact ⟨rfl, hready, rfl⟩
        · split <;> exact ⟨rfl, hready, rfl⟩
    · by_cases h2 : cmd = KTK_GET_TEMP_TYPE
      · have h3 : KTK_GET_TEMP_TYPE ≠ KTK_SET_TEMP_TYPE := by decide
        exact ⟨s, by simp [step, kdev_ioctl, h2, h3], rfl, hready, rfl⟩
      · exact ⟨s, by simp [step, kdev_ioctl, h1, h2, hcmd], rfl, hready, rfl⟩

theorem run_capture_free (ops : List Op) :
    ∀ s : kunetik_dev, s.is_ready = true → (∀ op ∈ ops, capture_free op = true) →
      ∃ t, run s ops = some t ∧ t.device_data = s.device_data ∧ t.is_ready = true ∧
        t.data_size = s.data_size := by
  induction ops with
  | nil => intro s hready _; exact ⟨s, rfl, rfl, hready, rfl⟩
  | cons op ops ih =>
    intro s hready hall
    obtain ⟨t, ht, hd, hr, hs⟩ :=
      step_capture_free s op hready (hall op (List.mem_cons_self _ _))
    obtain ⟨u, hu, hd1, hr1, hs1⟩ :=
      ih t hr (fun o ho => hall o (List.mem_cons_of_mem _ ho))
    exact ⟨u, by simp [run, ht, hu], hd1.trans hd, hr1, hs1.trans hs⟩

theorem capture_after_five (s : kunetik_dev) (rnd : Nat × Nat) :
    capture_after s rnd 5 = (ktk_capture_data s rnd).map (fun p => p.2) := by
  simp only [capture_after, capture_stmt, ktk_capture_data]
  cases __normalize
    ((((s.device_data.set KTK_TEMPTYPE_OFFSET s.temp_type.type).set KTK_TEMP_OFFSET
      (rnd.1 % 256)).set (KTK_TEMP_OFFSET + 1) (rnd.2 % 256)).getD KTK_TEMP_OFFSET 0)
    s.max_temp s.min_temp <;> rfl

theorem capture_stmt_ready (n : Nat) (k k1 : kunetik_dev) (rnd : Nat × Nat)
    (h1 : 1 ≤ n) (h3 : n ≤ 3) (hs : capture_stmt n k rnd = some k1) :
    k1.is_ready = k.is_ready := by
  have hn : n = 1 ∨ n = 2 ∨ n = 3 := by omega
  rcases hn with rfl | rfl | rfl
  · simp only [capture_stmt, Option.some.injEq] at hs
    rw [← hs]
  · simp only [capture_stmt, Option.some.injEq] at hs
    rw [← hs]
  · simp only [capture_stmt] at hs
    split at hs
    · simp at hs
    · simp only [Option.some.injEq] at hs
      rw [← hs]

theorem capture_after_not_ready (s : kunetik_dev) (rnd : Nat × Nat) :
    ∀ (n : Nat) (k : kunetik_dev), 1 ≤ n → n ≤ 4 → capture_after s rnd n = some k →
      k.is_ready = false := by
  intro n
  induction n with
  | zero => intro k h1; omega
  | succ m ih =>
    intro k _ h4 hk
    simp only [capture_after] at hk
    cases hm : capture_after s rnd m with
    | none => simp [hm] at hk
    | some k0 =>
      simp only [hm] at hk
      by_cases hz : m = 0
      · subst hz
        simp only [capture_stmt, Option.some.injEq] at hk
        rw [← hk]
      · rw [capture_stmt_ready m k0 k rnd (by omega) (by omega) hk]
        exact ih k0 (by omega) (by omega) hm

theorem read_copy_delivers_head (k : kunetik_dev) (room len : Nat) :
    (kdev_read_copy k room len).ubuf <+: k.device_data := by
  unfold kdev_read_copy copy_to_user
  simp only
  split <;> split <;> exact List.take_prefix _ _

theorem reader_ok_mono (s : kunetik_dev) (rnd : Nat × Nat) (cap : Nat) (r : reader)
    (hcap : cap < 5) (h : reader_ok s rnd cap r) : reader_ok s rnd (cap + 1) r := by
  unfold reader_ok at h ⊢
  cases hp : r.pc with
  | test => trivial
  | asleep => trivial
  | copy => simp only [hp] at h; omega
  | done ret ubuf =>
    simp only [hp] at h ⊢
    refine ⟨?_, h.2⟩
    rcases h.1 with h1 | h1
    · exact Or.inl h1
    · omega

theorem reader_stmt_ok (s : kunetik_dev) (rnd : Nat × Nat) (c : config) (r : reader)
    (hc : safe_inv s rnd c) (h : reader_ok s rnd c.cap r) :
    reader_ok s rnd c.cap (reader_stmt c.kdev r) := by
  obtain ⟨_, h1, h5, hpre, _⟩ := hc
  have hready : c.kdev.is_ready = true → c.cap = 5 := by
    intro ht
    by_contra hne
    have := capture_after_not_ready s rnd c.cap c.kdev h1 (by omega) hpre
    rw [ht] at this
    exact Bool.noConfusion this
  unfold reader_stmt
  cases hp : r.pc with
  | test =>
    simp only
    cases hr : c.kdev.is_ready with
    | false =>
      simp only [Bool.not_false, if_true]
      split
      · simp [reader_ok]
      · simp only [reader_ok]
    | true =>
      simp only [Bool.not_true, Bool.false_eq_true, if_false, reader_ok]
      exact hready hr
  | asleep =>
    simp only
    cases hr : c.kdev.is_ready with
    | false =>
      simp only [Bool.false_eq_true, if_false]
      unfold reader_ok
      simp only [hp]
    | true =>
      simp only [if_true, reader_ok]
      exact hready hr
  | copy =>
    unfold reader_ok at h
    simp only [hp] at h
    simp only [reader_ok]
    refine ⟨Or.inr h, ?_⟩
    intro final hf
    rw [h] at hpre
    rw [hpre] at hf
    obtain rfl := Option.some.inj hf
    exact read_copy_delivers_head _ _ _
  | done ret ubuf =>
    simp only
    exact h

theorem reader_signal_ok (s : kunetik_dev) (rnd : Nat × Nat) (cap : Nat) (r : reader)
    (h : reader_ok s rnd cap r) : reader_ok s rnd cap (reader_signal r) := by
  unfold reader_signal
  cases hp : r.pc with
  | test => simp only; exact h
  | asleep => simp [reader_ok]
  | copy => simp only; exact h
  | done ret ubuf => simp only; exact h

theorem safe_inv_step (s : kunetik_dev) (rnd : Nat × Nat) (c c1 : config) (e : event)
    (hc : safe_inv s rnd c) (hs : sys_step c e = some c1) : safe_inv s rnd c1 := by
  have hc0 := hc
  obtain ⟨hr, h1, h5, hpre, hrd⟩ := hc
  cases e with
  | capture =>
    simp only [sys_step] at hs
    cases hk : capture_stmt c.cap c.kdev c.rnd with
    | none => simp [hk] at hs
    | some k =>
      simp only [hk, Option.some.injEq] at hs
      have hlt : c.cap < 5 := by
        by_contra hge
        have h5eq : c.cap = 5 := by omega
        rw [h5eq] at hk
        simp [capture_stmt] at hk
      rw [← hs]
      refine ⟨hr, by simp, by simp only; omega, ?_, ?_⟩
      · simp only [capture_after, hpre]
        rw [← hr]; exact hk
      · intro r hmem
        exact reader_ok_mono s rnd c.cap r hlt (hrd r hmem)
  | read i =>
    simp only [sys_step] at hs
    cases hi : c.readers[i]? with
    | none => simp [hi] at hs
    | some r =>
      simp only [hi, Option.some.injEq] at hs
      rw [← hs]
      refine ⟨hr, h1, h5, hpre, ?_⟩
      intro r1 hmem
      rcases List.mem_or_eq_of_mem_set hmem with hm | hm
      · exact hrd r1 hm
      · rw [hm]
        exact reader_stmt_ok s rnd c r hc0 (hrd r (List.getElem?_mem hi))
  | signal i =>
    simp only [sys_step] at hs
    cases hi : c.readers[i]? with
    | none => simp [hi] at hs
    | some r =>
      simp only [hi, Option.some.injEq] at hs
      rw [← hs]
      refine ⟨hr, h1, h5, hpre, ?_⟩
      intro r1 hmem
      rcases List.mem_or_eq_of_mem_set hmem with hm | hm
      · exact hrd r1 hm
      · rw [hm]
        exact reader_signal_ok s rnd c.cap r (hrd r (List.getElem?_mem hi))

theorem safe_inv_run (s : kunetik_dev) (rnd : Nat × Nat) (evs : List event) :
    ∀ c c1 : config, safe_inv s rnd c → sys_run c evs = some c1 → safe_inv s rnd c1 := by
  induction evs with
  | nil =>
    intro c c1 hc hs
    simp only [sys_run, Option.some.injEq] at hs
    rw [← hs]; exact hc
  | cons e es ih =>
    intro c c1 hc hs
    simp only [sys_run] at hs
    cases he : sys_step c e with
    | none => simp [he] at hs
    | some c2 =>
      simp only [he] at hs
      exact ih c2 c1 (safe_inv_step s rnd c c2 e hc he) hs

theorem reachable_kdev_sampled : Reachable kdev_sampled :=
  Reachable.step kdev0 (.fop_ioctl KTK_CAPTURE_DATA ⟨none, 0⟩ 0 (36, 77)) kdev_sampled
    reachable_kdev0 (by decide)

/-! ## Capture: the normalised measurement -/

/-- C1 (amended): for every device state reachable from initialisation and every raw
measurement byte `r`, `ktk_capture_data` returns 0 and stores at buffer offset
1 exactly `r mod (max - min + 1) + min`, where `(min, max)` is the table range
of the active unit and also the stored range; `__normalize` yields that very
number, so the store into a byte does not wrap, and `min ≤ value ≤ max`.
With unit Fahrenheit and `r = 200` the stored value is 54. -/
theorem capture_stores_normalized :
    (∀ kdev : kunetik_dev, Reachable kdev → ∀ r h : Nat, r < 256 →
      ∃ mn mx kdev1,
        spec_range kdev.temp_type.type = some (mn, mx) ∧
        (kdev.min_temp, kdev.max_temp) = (mn, mx) ∧
        ktk_capture_data kdev (r, h) = some (0, kdev1) ∧
        kdev1.device_data[KTK_TEMP_OFFSET]? = some (r % (mx - mn + 1) + mn) ∧
        __normalize r mx mn = some ((r % (mx - mn + 1) + mn : Nat) : Int) ∧
        r % (mx - mn + 1) + mn < 256 ∧
        mn ≤ r % (mx - mn + 1) + mn ∧ r % (mx - mn + 1) + mn ≤ mx) ∧
    (∀ h : Nat, (ktk_capture_data kdev_fahrenheit (200, h)).map
        (fun p => p.2.device_data[KTK_TEMP_OFFSET]?) = some (some 54)) := by
  refine ⟨?_, ?_⟩
  · intro kdev hreach r h hr
    obtain ⟨_, ⟨a, b, c, hd⟩, hrange⟩ := reachable_inv hreach
    have hle : kdev.min_temp ≤ kdev.max_temp ∧
        r % (kdev.max_temp - kdev.min_temp + 1) + kdev.min_temp ≤ kdev.max_temp ∧
        kdev.max_temp < 256 := by
      rcases spec_range_cases hrange with ⟨_, h1, h2⟩ | ⟨_, h1, h2⟩ <;> rw [h1, h2] <;> omega
    refine ⟨kdev.min_temp, kdev.max_temp, _, hrange, rfl, capture_eq kdev a b c hd hrange (r, h),
      ?_, normalize_of_le _ _ _ hle.1, by omega, by omega, hle.2.1⟩
    simp [KTK_TEMP_OFFSET, Nat.mod_eq_of_lt hr]
  · intro h
    rw [capture_eq kdev_fahrenheit 0 0 0 rfl rfl (200, h)]
    simp [KTK_TEMP_OFFSET, kdev_fahrenheit, kdev0]

/-- Witness of C1: the Fahrenheit device and the raw byte 200. -/
theorem capture_stores_normalized_witness :
    Reachable kdev_fahrenheit ∧ 200 < 256 ∧
      ∃ mn mx kdev1,
        spec_range kdev_fahrenheit.temp_type.type = some (mn, mx) ∧
        (kdev_fahrenheit.min_temp, kdev_fahrenheit.max_temp) = (mn, mx) ∧
        ktk_capture_data kdev_fahrenheit (200, 7) = some (0, kdev1) ∧
        kdev1.device_data[KTK_TEMP_OFFSET]? = some (200 % (mx - mn + 1) + mn) ∧
        __normalize 200 mx mn = some ((200 % (mx - mn + 1) + mn : Nat) : Int) ∧
        200 % (mx - mn + 1) + mn < 256 ∧
        mn ≤ 200 % (mx - mn + 1) + mn ∧ 200 % (mx - mn + 1) + mn ≤ mx :=
  ⟨reachable_kdev_fahrenheit, by decide,
    capture_stores_normalized.1 kdev_fahrenheit reachable_kdev_fahrenheit 200 7 (by decide)⟩

/-- Counterexample to C1 as stated: on the reachable Fahrenheit device the raw
byte 200 is stored as 54 (200 mod 89 is 22), not as 55. -/
theorem capture_fahrenheit_200_is_not_55 :
    Reachable kdev_fahrenheit ∧
    kdev_fahrenheit.temp_type.type = KTK_TEMP_TYPE_FAHRENHEIT ∧
    (ktk_capture_data kdev_fahrenheit (200, 0)).map
        (fun p => p.2.device_data[KTK_TEMP_OFFSET]?) = some (some 54) ∧
    (ktk_capture_data kdev_fahrenheit (200, 0)).map
        (fun p => p.2.device_data[KTK_TEMP_OFFSET]?) ≠ some (some 55) :=
  ⟨reachable_kdev_fahrenheit, rfl, by decide, by decide⟩

/-! ## Unit configuration -/

/-- C2: for every device state and every valid unit tag `t` (0 or 1), the command
SetUnit whose payload `t` is copied in returns 0, stores `t` together with the
table range of `t` and changes nothing else; a following GetUnit whose copy
out succeeds returns 0 and delivers `t`; and GetUnit, whether or not its copy
succeeds, leaves the device state as it was. -/
theorem set_unit_get_unit_roundtrip (kdev : kunetik_dev) (t : Nat)
    (ht : t = KTK_TEMP_TYPE_CELCIUS ∨ t = KTK_TEMP_TYPE_FAHRENHEIT)
    (arg1 arg2 : user_arg) (stack1 stack2 : Nat) (rnd1 rnd2 : Nat × Nat)
    (hin : arg1.src = some t) :
    ∃ mn mx kdev1,
      spec_range t = some (mn, mx) ∧
      kdev1 = { kdev with temp_type := { type := t }, min_temp := mn, max_temp := mx } ∧
      kdev_ioctl kdev KTK_SET_TEMP_TYPE arg1 stack1 rnd1 =
        some { rv := 0, kdev := kdev1, uarg := [] } ∧
      (sizeof_temp_type ≤ arg2.room →
        kdev_ioctl kdev1 KTK_GET_TEMP_TYPE arg2 stack2 rnd2 =
          some { rv := 0, kdev := kdev1, uarg := [t] }) ∧
      (kdev_ioctl kdev1 KTK_GET_TEMP_TYPE arg2 stack2 rnd2).map (fun r => r.kdev) = some kdev1 ∧
      (kdev_ioctl kdev KTK_GET_TEMP_TYPE arg2 stack2 rnd2).map (fun r => r.kdev) = some kdev := by
  have hget : ∀ s : kunetik_dev,
      (kdev_ioctl s KTK_GET_TEMP_TYPE arg2 stack2 rnd2).map (fun r => r.kdev) = some s := by
    intro s
    simp [kdev_ioctl, KTK_GET_TEMP_TYPE, KTK_SET_TEMP_TYPE, _IOR, _IOW, _IOC, _IOC_READ,
      _IOC_WRITE, sizeof_temp_type]
  have hgetok : ∀ s : kunetik_dev, sizeof_temp_type ≤ arg2.room →
      kdev_ioctl s KTK_GET_TEMP_TYPE arg2 stack2 rnd2 =
        some { rv := 0, kdev := s, uarg := [s.temp_type.type] } := by
    intro s hroom
    have h1 : min 1 arg2.room = 1 := by
      simp only [sizeof_temp_type] at hroom; omega
    simp [kdev_ioctl, KTK_GET_TEMP_TYPE, KTK_SET_TEMP_TYPE, _IOR, _IOW, _IOC, _IOC_READ,
      _IOC_WRITE, sizeof_temp_type, copy_to_user, h1]
  rcases ht with ht | ht
  · subst ht
    refine ⟨0, 40, _, rfl, rfl, ?_, ?_, hget _, hget _⟩
    · simp [kdev_ioctl, copy_from_user, hin, ktk_set_temp_type, KTK_TEMP_TYPE_CELCIUS,
        KTK_MAX_TEMP_CELCIUS, KTK_MIN_TEMP_CELCIUS]
    · intro hroom
      rw [hgetok _ hroom]
  · subst ht
    refine ⟨32, 120, _, rfl, rfl, ?_, ?_, hget _, hget _⟩
    · simp [kdev_ioctl, copy_from_user, hin, ktk_set_temp_type, KTK_TEMP_TYPE_CELCIUS,
        KTK_TEMP_TYPE_FAHRENHEIT, KTK_MAX_TEMP_FAHRENHEIT, KTK_MIN_TEMP_FAHRENHEIT]
    · intro hroom
      rw [hgetok _ hroom]

/-- Witness of C2: SetUnit(1) then GetUnit on the freshly initialised device. -/
theorem set_unit_get_unit_roundtrip_witness :
    (1 = KTK_TEMP_TYPE_CELCIUS ∨ 1 = KTK_TEMP_TYPE_FAHRENHEIT) ∧
    (({ src := some 1, room := 0 } : user_arg).src = some 1) ∧
    ∃ mn mx kdev1,
      spec_range 1 = some (mn, mx) ∧
      kdev1 = { kdev0 with temp_type := { type := 1 }, min_temp := mn, max_temp := mx } ∧
      kdev_ioctl kdev0 KTK_SET_TEMP_TYPE { src := some 1, room := 0 } 9 (0, 0) =
        some { rv := 0, kdev := kdev1, uarg := [] } ∧
      (sizeof_temp_type ≤ ({ src := none, room := 1 } : user_arg).room →
        kdev_ioctl kdev1 KTK_GET_TEMP_TYPE { src := none, room := 1 } 9 (0, 0) =
          some { rv := 0, kdev := kdev1, uarg := [1] }) ∧
      (kdev_ioctl kdev1 KTK_GET_TEMP_TYPE { src := none, room := 1 } 9 (0, 0)).map
        (fun r => r.kdev) = some kdev1 ∧
      (kdev_ioctl kdev0 KTK_GET_TEMP_TYPE { src := none, room := 1 } 9 (0, 0)).map
        (fun r => r.kdev) = some kdev0 :=
  ⟨Or.inr rfl, rfl,
    set_unit_get_unit_roundtrip kdev0 1 (Or.inr rfl) { src := some 1, room := 0 }
      { src := none, room := 1 } 9 9 (0, 0) (0, 0) rfl⟩

/-! ## Session ownership -/

/-- C3: for every device state, `kdev_open` returns 0 if and only if `in_use` is
false beforehand; in that case the state afterwards is the prior state with
`in_use` set (readiness, unit, range and sample buffer unchanged); otherwise
it returns `-EBUSY` (-16) and the whole state is unchanged. -/
theorem open_succeeds_iff_free (kdev : kunetik_dev) :
    ((kdev_open kdev).1 = 0 ↔ kdev.in_use = false) ∧
    (kdev.in_use = false → kdev_open kdev = (0, { kdev with in_use := true })) ∧
    (kdev.in_use = true → kdev_open kdev = (-EBUSY, kdev)) ∧
    -EBUSY = -16 := by
  cases h : kdev.in_use <;> simp [kdev_open, h, EBUSY]

/-- Witness of C3: the freshly initialised device is free and is opened; the
opened device refuses a second open. -/
theorem open_succeeds_iff_free_witness :
    (kdev0.in_use = false ∧ kdev_open kdev0 = (0, { kdev0 with in_use := true })) ∧
    (kdev_opened.in_use = true ∧ kdev_open kdev_opened = (-EBUSY, kdev_opened)) :=
  ⟨⟨rfl, (open_succeeds_iff_free kdev0).2.1 rfl⟩,
   ⟨rfl, (open_succeeds_iff_free kdev_opened).2.2.1 rfl⟩⟩

/-- C4: for every device state, `kdev_release` returns `-EINVAL` (-22) and changes
nothing if `in_use` is already false, and otherwise returns 0 and only clears
`in_use` (readiness, unit, range and sample buffer unchanged in both cases).
Consequently, after a successful open a second open fails with `-EBUSY` and
changes nothing, and after a release of that session the next open returns 0. -/
theorem release_clears_only_in_use (kdev : kunetik_dev) :
    (kdev.in_use = false → kdev_release kdev = (-EINVAL, kdev)) ∧
    (kdev.in_use = true → kdev_release kdev = (0, { kdev with in_use := false })) ∧
    -EINVAL = -22 ∧
    ((kdev_open kdev).1 = 0 →
      kdev_open (kdev_open kdev).2 = (-EBUSY, (kdev_open kdev).2) ∧
      (kdev_release (kdev_open kdev).2).1 = 0 ∧
      (kdev_open (kdev_release (kdev_open kdev).2).2).1 = 0) := by
  cases h : kdev.in_use <;> simp [kdev_open, kdev_release, h, EINVAL, EBUSY]

/-- Witness of C4: a release of the free device, a release of the opened
device, and open, open again, release, open on the fresh device. -/
theorem release_clears_only_in_use_witness :
    (kdev0.in_use = false ∧ kdev_release kdev0 = (-EINVAL, kdev0)) ∧
    (kdev_opened.in_use = true ∧
      kdev_release kdev_opened = (0, { kdev_opened with in_use := false })) ∧
    ((kdev_open kdev0).1 = 0 ∧
      (kdev_open (kdev_open kdev0).2 = (-EBUSY, (kdev_open kdev0).2) ∧
        (kdev_release (kdev_open kdev0).2).1 = 0 ∧
        (kdev_open (kdev_release (kdev_open kdev0).2).2).1 = 0)) :=
  ⟨⟨rfl, (release_clears_only_in_use kdev0).1 rfl⟩,
   ⟨rfl, (release_clears_only_in_use kdev_opened).2.1 rfl⟩,
   ⟨rfl, (release_clears_only_in_use kdev0).2.2.2 rfl⟩⟩

/-! ## Read before any sample is ready -/

/-- C5: for every device state whose readiness flag is false, `kdev_read` with
`O_NONBLOCK` set returns `-EAGAIN` (-11) whatever would end a wait, and
without `O_NONBLOCK`, when a signal ends the wait, returns `-ERESTARTSYS`
(-512); in both cases no byte reaches the caller and the device state,
readiness flag included, is unchanged. The initial state is such a state. -/
theorem read_not_ready_fails (kdev : kunetik_dev) (f : file) (room len : Nat)
    (hready : kdev.is_ready = false) :
    ((f.f_flags &&& O_NONBLOCK) > 0 → ∀ w : wait_event,
      kdev_read kdev f room len w = some { ret := -EAGAIN, kdev := kdev, ubuf := [] }) ∧
    (¬ (f.f_flags &&& O_NONBLOCK) > 0 →
      kdev_read kdev f room len .signal =
        some { ret := -ERESTARTSYS, kdev := kdev, ubuf := [] }) ∧
    -EAGAIN = -11 ∧ -ERESTARTSYS = -512 ∧ kdev0.is_ready = false :=
  ⟨fun hf w => read_nonblock kdev f room len w hready hf,
   fun hf => read_signal kdev f room len hready hf, rfl, rfl, rfl⟩

/-- Witness of C5: a non-blocking read and a blocking read ended by a signal,
both on the freshly initialised device. -/
theorem read_not_ready_fails_witness :
    kdev0.is_ready = false ∧
    ((({ f_flags := O_NONBLOCK } : file).f_flags &&& O_NONBLOCK) > 0 ∧
      kdev_read kdev0 { f_flags := O_NONBLOCK } 4 4 (.capture (1, 2)) =
        some { ret := -EAGAIN, kdev := kdev0, ubuf := [] }) ∧
    (¬ (({ f_flags := 0 } : file).f_flags &&& O_NONBLOCK) > 0 ∧
      kdev_read kdev0 { f_flags := 0 } 4 4 .signal =
        some { ret := -ERESTARTSYS, kdev := kdev0, ubuf := [] }) :=
  ⟨rfl,
   ⟨by decide,
    (read_not_ready_fails kdev0 { f_flags := O_NONBLOCK } 4 4 rfl).1 (by decide)
      (.capture (1, 2))⟩,
   ⟨by decide, (read_not_ready_fails kdev0 { f_flags := 0 } 4 4 rfl).2.1 (by decide)⟩⟩

/-! ## Read of a ready sample -/

/-- C6: for every device state with the buffer allocated and the readiness flag
true and every `len`, a `kdev_read` whose copy to the caller succeeds returns
`n = min(len, 4)`, delivers exactly the first `n` bytes of the sample buffer
and leaves the whole device state unchanged; hence two such reads with the
same `len`, separated by any operations other than the capture command
(open, release, read, write, SetUnit, GetUnit, unknown commands), return the
same count and the same bytes. -/
theorem read_ready_returns_sample :
    (∀ (kdev : kunetik_dev) (f : file) (room len : Nat) (w : wait_event),
      Allocated kdev → kdev.is_ready = true →
      (copy_to_user room kdev.device_data (min len KTK_DATA_SIZE)).1 = 0 →
      kdev_read kdev f room len w =
        some { ret := ((min len KTK_DATA_SIZE : Nat) : Int), kdev := kdev,
               ubuf := kdev.device_data.take (min len KTK_DATA_SIZE) } ∧
      (kdev.device_data.take (min len KTK_DATA_SIZE)).length = min len 4) ∧
    (∀ (kdev : kunetik_dev) (ops : List Op) (f1 f2 : file) (room1 room2 len : Nat)
      (w1 w2 : wait_event),
      Allocated kdev → kdev.is_ready = true →
      (∀ op ∈ ops, capture_free op = true) →
      (copy_to_user room1 kdev.device_data (min len KTK_DATA_SIZE)).1 = 0 →
      (copy_to_user room2 kdev.device_data (min len KTK_DATA_SIZE)).1 = 0 →
      ∃ r1 kdev2 r2,
        kdev_read kdev f1 room1 len w1 = some r1 ∧
        run r1.kdev ops = some kdev2 ∧
        kdev_read kdev2 f2 room2 len w2 = some r2 ∧
        0 ≤ r1.ret ∧ r2.ret = r1.ret ∧ r2.ubuf = r1.ubuf) := by
  have part1 : ∀ (kdev : kunetik_dev) (f : file) (room len : Nat) (w : wait_event),
      Allocated kdev → kdev.is_ready = true →
      (copy_to_user room kdev.device_data (min len KTK_DATA_SIZE)).1 = 0 →
      kdev_read kdev f room len w =
        some { ret := ((min len KTK_DATA_SIZE : Nat) : Int), kdev := kdev,
               ubuf := kdev.device_data.take (min len KTK_DATA_SIZE) } := by
    intro kdev f room len w ha hready hc
    rw [read_ready kdev f room len w hready, read_copy_ok kdev room len ha hc]
  refine ⟨?_, ?_⟩
  · intro kdev f room len w ha hready hc
    refine ⟨part1 kdev f room len w ha hready hc, ?_⟩
    rw [List.length_take, ha.2]
    simp only [KTK_DATA_SIZE]; omega
  · intro kdev ops f1 f2 room1 room2 len w1 w2 ha hready hall hc1 hc2
    obtain ⟨t, ht, hd, hr, hs⟩ := run_capture_free ops kdev hready hall
    have hat : Allocated t := ⟨hs.trans ha.1, by rw [hd]; exact ha.2⟩
    refine ⟨_, t, _, part1 kdev f1 room1 len w1 ha hready hc1, ht,
      part1 t f2 room2 len w2 hat hr (by rw [hd]; exact hc2), ?_, rfl, by rw [hd]⟩
    exact Int.ofNat_nonneg _

/-- Witness of C6: a 4-byte read of a device holding a sample, and two 3-byte
reads of it separated by SetUnit, open, write, GetUnit, read and release. -/
theorem read_ready_returns_sample_witness :
    Allocated kdev_sampled ∧ kdev_sampled.is_ready = true ∧
    ((copy_to_user 4 kdev_sampled.device_data (min 4 KTK_DATA_SIZE)).1 = 0 ∧
      (kdev_read kdev_sampled { f_flags := 0 } 4 4 .signal =
        some { ret := ((min 4 KTK_DATA_SIZE : Nat) : Int), kdev := kdev_sampled,
               ubuf := kdev_sampled.device_data.take (min 4 KTK_DATA_SIZE) } ∧
        (kdev_sampled.device_data.take (min 4 KTK_DATA_SIZE)).length = min 4 4)) ∧
    ((∀ op ∈ [Op.fop_ioctl KTK_SET_TEMP_TYPE { src := some 1, room := 0 } 0 (0, 0),
              Op.fop_open, Op.fop_write [1, 2] 2,
              Op.fop_ioctl KTK_GET_TEMP_TYPE { src := none, room := 1 } 0 (0, 0),
              Op.fop_read { f_flags := 0 } 4 2 (.capture (5, 6)), Op.fop_release],
        capture_free op = true) ∧
      (copy_to_user 4 kdev_sampled.device_data (min 3 KTK_DATA_SIZE)).1 = 0 ∧
      (copy_to_user 8 kdev_sampled.device_data (min 3 KTK_DATA_SIZE)).1 = 0 ∧
      ∃ r1 kdev2 r2,
        kdev_read kdev_sampled { f_flags := 0 } 4 3 .signal = some r1 ∧
        run r1.kdev [Op.fop_ioctl KTK_SET_TEMP_TYPE { src := some 1, room := 0 } 0 (0, 0),
              Op.fop_open, Op.fop_write [1, 2] 2,
              Op.fop_ioctl KTK_GET_TEMP_TYPE { src := none, room := 1 } 0 (0, 0),
              Op.fop_read { f_flags := 0 } 4 2 (.capture (5, 6)), Op.fop_release] = some kdev2 ∧
        kdev_read kdev2 { f_flags := O_NONBLOCK } 8 3 (.capture (3, 4)) = some r2 ∧
        0 ≤ r1.ret ∧ r2.ret = r1.ret ∧ r2.ubuf = r1.ubuf) :=
  ⟨⟨rfl, rfl⟩, rfl,
   ⟨by decide,
    read_ready_returns_sample.1 kdev_sampled { f_flags := 0 } 4 4 .signal ⟨rfl, rfl⟩ rfl
      (by decide)⟩,
   ⟨by decide, by decide, by decide,
    read_ready_returns_sample.2 kdev_sampled
      [Op.fop_ioctl KTK_SET_TEMP_TYPE { src := some 1, room := 0 } 0 (0, 0),
       Op.fop_open, Op.fop_write [1, 2] 2,
       Op.fop_ioctl KTK_GET_TEMP_TYPE { src := none, room := 1 } 0 (0, 0),
       Op.fop_read { f_flags := 0 } 4 2 (.capture (5, 6)), Op.fop_release]
      { f_flags := 0 } { f_flags := O_NONBLOCK } 4 8 3 .signal (.capture (3, 4))
      ⟨rfl, rfl⟩ rfl (by decide) (by decide) (by decide)⟩⟩

/-! ## The capture command -/

/-- C7 (amended): for every device state reachable from initialisation and every
pair of generated bytes `(r, h)`, the command TriggerCapture returns 0 and
leaves the device with the readiness flag true and the sample buffer equal to
`[unit tag, r mod (max - min + 1) + min, h, 0]` (the second entry being the
value of `__normalize`), the reserved byte being 0 before and after; unit,
range and ownership flag are unchanged. From the initial state, SetUnit(1)
then a capture with raw measurement 200 makes a 4-byte read return
`[1, 54, h, 0]`. -/
theorem trigger_capture_fills_buffer :
    (∀ kdev : kunetik_dev, Reachable kdev → ∀ r h : Nat, r < 256 → h < 256 →
      ∀ (arg : user_arg) (stack : Nat),
      kdev_ioctl kdev KTK_CAPTURE_DATA arg stack (r, h) =
        some { rv := 0,
               kdev := { kdev with
                 is_ready := true,
                 device_data := [kdev.temp_type.type,
                   r % (kdev.max_temp - kdev.min_temp + 1) + kdev.min_temp, h, 0] },
               uarg := [] } ∧
      __normalize r kdev.max_temp kdev.min_temp =
        some ((r % (kdev.max_temp - kdev.min_temp + 1) + kdev.min_temp : Nat) : Int) ∧
      kdev.device_data[KTK_DATA_SIZE - 1]? = some 0) ∧
    (∀ h : Nat, h < 256 → ∀ (f : file) (w : wait_event),
      ∃ s1 s2,
        step kdev0 (.fop_ioctl KTK_SET_TEMP_TYPE { src := some 1, room := 0 } 0 (0, 0)) = some s1 ∧
        step s1 (.fop_ioctl KTK_CAPTURE_DATA { src := none, room := 0 } 0 (200, h)) = some s2 ∧
        kdev_read s2 f 4 4 w = some { ret := 4, kdev := s2, ubuf := [1, 54, h, 0] }) := by
  have hcmd : ∀ (s : kunetik_dev) (arg : user_arg) (stack : Nat) (rnd : Nat × Nat),
      kdev_ioctl s KTK_CAPTURE_DATA arg stack rnd =
        (ktk_capture_data s rnd).map (fun p => { rv := p.1, kdev := p.2, uarg := [] }) := by
    intro s arg stack rnd
    have h1 : KTK_CAPTURE_DATA ≠ KTK_SET_TEMP_TYPE := by decide
    have h2 : KTK_CAPTURE_DATA ≠ KTK_GET_TEMP_TYPE := by decide
    cases hc : ktk_capture_data s rnd <;> simp [kdev_ioctl, h1, h2, hc]
  refine ⟨?_, ?_⟩
  · intro kdev hreach r h hr hh arg stack
    obtain ⟨_, ⟨a, b, c, hd⟩, hrange⟩ := reachable_inv hreach
    have hle : kdev.min_temp ≤ kdev.max_temp := by
      rcases spec_range_cases hrange with ⟨_, h1, h2⟩ | ⟨_, h1, h2⟩ <;> omega
    refine ⟨?_, normalize_of_le _ _ _ hle, by simp [hd, KTK_DATA_SIZE]⟩
    rw [hcmd, capture_eq kdev a b c hd hrange (r, h)]
    simp [Nat.mod_eq_of_lt hr, Nat.mod_eq_of_lt hh]
  · intro h hh f w
    refine ⟨kdev_fahrenheit,
      { kdev_fahrenheit with is_ready := true, device_data := [1, 54, h, 0] },
      by decide, ?_, ?_⟩
    · simp only [step, hcmd, capture_eq kdev_fahrenheit 0 0 0 rfl rfl (200, h)]
      simp [kdev_fahrenheit, kdev0, Nat.mod_eq_of_lt hh]
    · have ha : Allocated
          { kdev_fahrenheit with is_ready := true, device_data := [1, 54, h, 0] } := ⟨rfl, rfl⟩
      rw [read_ready _ f 4 4 w rfl, read_copy_ok _ 4 4 ha (by simp [copy_to_user])]
      simp [KTK_DATA_SIZE]

/-- Witness of C7: the capture command on the Fahrenheit device with bytes
(200, 7), and the scenario SetUnit(1), capture, 4-byte read with humidity 7. -/
theorem trigger_capture_fills_buffer_witness :
    (Reachable kdev_fahrenheit ∧ 200 < 256 ∧ 7 < 256 ∧
      (kdev_ioctl kdev_fahrenheit KTK_CAPTURE_DATA { src := none, room := 0 } 0 (200, 7) =
          some { rv := 0,
                 kdev := { kdev_fahrenheit with
                   is_ready := true,
                   device_data := [kdev_fahrenheit.temp_type.type,
                     200 % (kdev_fahrenheit.max_temp - kdev_fahrenheit.min_temp + 1)
                       + kdev_fahrenheit.min_temp, 7, 0] },
                 uarg := [] } ∧
        __normalize 200 kdev_fahrenheit.max_temp kdev_fahrenheit.min_temp =
          some ((200 % (kdev_fahrenheit.max_temp - kdev_fahrenheit.min_temp + 1)
            + kdev_fahrenheit.min_temp : Nat) : Int) ∧
        kdev_fahrenheit.device_data[KTK_DATA_SIZE - 1]? = some 0)) ∧
    (7 < 256 ∧
      ∃ s1 s2,
        step kdev0 (.fop_ioctl KTK_SET_TEMP_TYPE { src := some 1, room := 0 } 0 (0, 0)) = some s1 ∧
        step s1 (.fop_ioctl KTK_CAPTURE_DATA { src := none, room := 0 } 0 (200, 7)) = some s2 ∧
        kdev_read s2 { f_flags := 0 } 4 4 .signal =
          some { ret := 4, kdev := s2, ubuf := [1, 54, 7, 0] }) :=
  ⟨⟨reachable_kdev_fahrenheit, by decide, by decide,
    trigger_capture_fills_buffer.1 kdev_fahrenheit reachable_kdev_fahrenheit 200 7
      (by decide) (by decide) { src := none, room := 0 } 0⟩,
   ⟨by decide, trigger_capture_fills_buffer.2 7 (by decide) { f_flags := 0 } .signal⟩⟩

/-- Counterexample to C7 as stated: from the initial state, SetUnit(1) then a
capture with raw bytes (200, 0) makes a 4-byte read return `[1, 54, 0, 0]`,
not `[1, 55, 0, 0]`. -/
theorem read_after_fahrenheit_capture_is_not_55 :
    ∃ s2,
      run kdev0 [.fop_ioctl KTK_SET_TEMP_TYPE { src := some 1, room := 0 } 0 (0, 0),
                 .fop_ioctl KTK_CAPTURE_DATA { src := none, room := 0 } 0 (200, 0)] = some s2 ∧
      (kdev_read s2 { f_flags := 0 } 4 4 .signal).map (fun r => (r.ret, r.ubuf))
        = some (4, [1, 54, 0, 0]) ∧
      (kdev_read s2 { f_flags := 0 } 4 4 .signal).map (fun r => r.ubuf)
        ≠ some [1, 55, 0, 0] :=
  ⟨{ kdev_fahrenheit with is_ready := true, device_data := [1, 54, 0, 0] },
    by decide, by decide, by decide⟩

/-! ## Rejected control commands -/

/-- C8: for every device state, `kdev_ioctl` returns `-EINVAL` (-22) and leaves
the whole device state untouched, writing nothing to the caller, whenever the
command is SetUnit and the tag it hands to `ktk_set_temp_type` is neither 0
nor 1 (in particular when the payload byte copied in is a byte other than 0
and 1), or the command code is none of SetUnit, GetUnit, TriggerCapture. -/
theorem invalid_control_rejected (kdev : kunetik_dev) (cmd : Nat) (arg : user_arg)
    (stack : Nat) (rnd : Nat × Nat) :
    (cmd = KTK_SET_TEMP_TYPE →
      (copy_from_user stack arg.src).2 ≠ KTK_TEMP_TYPE_CELCIUS →
      (copy_from_user stack arg.src).2 ≠ KTK_TEMP_TYPE_FAHRENHEIT →
      kdev_ioctl kdev cmd arg stack rnd = some { rv := -EINVAL, kdev := kdev, uarg := [] }) ∧
    (cmd = KTK_SET_TEMP_TYPE → ∀ t : Nat, arg.src = some t → t < 256 →
      t ≠ KTK_TEMP_TYPE_CELCIUS → t ≠ KTK_TEMP_TYPE_FAHRENHEIT →
      kdev_ioctl kdev cmd arg stack rnd = some { rv := -EINVAL, kdev := kdev, uarg := [] }) ∧
    (cmd ≠ KTK_SET_TEMP_TYPE → cmd ≠ KTK_GET_TEMP_TYPE → cmd ≠ KTK_CAPTURE_DATA →
      kdev_ioctl kdev cmd arg stack rnd = some { rv := -EINVAL, kdev := kdev, uarg := [] }) ∧
    -EINVAL = -22 := by
  have hset : cmd = KTK_SET_TEMP_TYPE →
      (copy_from_user stack arg.src).2 ≠ KTK_TEMP_TYPE_CELCIUS →
      (copy_from_user stack arg.src).2 ≠ KTK_TEMP_TYPE_FAHRENHEIT →
      kdev_ioctl kdev cmd arg stack rnd =
        some { rv := -EINVAL, kdev := kdev, uarg := [] } := by
    intro hcmd h0 h1
    simp [kdev_ioctl, hcmd, ktk_set_temp_type, h0, h1]
  refine ⟨hset, ?_, ?_, rfl⟩
  · intro hcmd t hsrc ht h0 h1
    have hc : (copy_from_user stack arg.src).2 = t := by
      simp [copy_from_user, hsrc, Nat.mod_eq_of_lt ht]
    exact hset hcmd (by rw [hc]; exact h0) (by rw [hc]; exact h1)
  · intro h1 h2 h3
    simp [kdev_ioctl, h1, h2, h3]

/-- Witness of C8: SetUnit with tag 2 (through both statements of the SetUnit
case), and the unknown command code 0. -/
theorem invalid_control_rejected_witness :
    (KTK_SET_TEMP_TYPE = KTK_SET_TEMP_TYPE ∧
      (copy_from_user 1 ({ src := some 2, room := 0 } : user_arg).src).2
        ≠ KTK_TEMP_TYPE_CELCIUS ∧
      (copy_from_user 1 ({ src := some 2, room := 0 } : user_arg).src).2
        ≠ KTK_TEMP_TYPE_FAHRENHEIT ∧
      kdev_ioctl kdev0 KTK_SET_TEMP_TYPE { src := some 2, room := 0 } 1 (0, 0) =
        some { rv := -EINVAL, kdev := kdev0, uarg := [] }) ∧
    (KTK_SET_TEMP_TYPE = KTK_SET_TEMP_TYPE ∧
      ({ src := some 2, room := 0 } : user_arg).src = some 2 ∧ 2 < 256 ∧
      2 ≠ KTK_TEMP_TYPE_CELCIUS ∧ 2 ≠ KTK_TEMP_TYPE_FAHRENHEIT ∧
      kdev_ioctl kdev_sampled KTK_SET_TEMP_TYPE { src := some 2, room := 0 } 1 (0, 0) =
        some { rv := -EINVAL, kdev := kdev_sampled, uarg := [] }) ∧
    (0 ≠ KTK_SET_TEMP_TYPE ∧ 0 ≠ KTK_GET_TEMP_TYPE ∧ 0 ≠ KTK_CAPTURE_DATA ∧
      kdev_ioctl kdev0 0 { src := some 1, room := 1 } 1 (0, 0) =
        some { rv := -EINVAL, kdev := kdev0, uarg := [] }) :=
  ⟨⟨rfl, by decide, by decide,
      (invalid_control_rejected kdev0 KTK_SET_TEMP_TYPE { src := some 2, room := 0 } 1 (0, 0)).1
        rfl (by decide) (by decide)⟩,
   ⟨rfl, rfl, by decide, by decide, by decide,
      (invalid_control_rejected kdev_sampled KTK_SET_TEMP_TYPE
        { src := some 2, room := 0 } 1 (0, 0)).2.1
        rfl 2 rfl (by decide) (by decide) (by decide)⟩,
   ⟨by decide, by decide, by decide,
      (invalid_control_rejected kdev0 0 { src := some 1, room := 1 } 1 (0, 0)).2.2.1
        (by decide) (by decide) (by decide)⟩⟩

/-! ## Write -/

/-- C9: for every device state, payload and length, `kdev_write` returns `-EFAULT`
(-14), the error the driver uses for "does not support write"; the result is
negative, so no byte count is ever reported, and the device state is
unchanged. -/
theorem write_always_rejected (kdev : kunetik_dev) (ubuf : List Nat) (len : Nat) :
    kdev_write kdev ubuf len = (-EFAULT, kdev) ∧
    (kdev_write kdev ubuf len).1 < 0 ∧
    ¬ (0 ≤ (kdev_write kdev ubuf len).1) ∧
    -EFAULT = -14 := by
  have hret : (kdev_write kdev ubuf len).1 = -14 := rfl
  refine ⟨rfl, ?_, ?_, rfl⟩
  · rw [hret]; decide
  · rw [hret]; decide

/-! ## A capture interleaved with reads -/

/-- C10 (amended): the driver takes no lock; the statements of `ktk_capture_data`
run in the order of the function itself, the first only drops readiness, the
last only raises it, and readiness is false after each statement in between.
Hence, under every interleaving of the statements of a capture with any
number of concurrent reads and signals, a read whose readiness test comes
after the capture has dropped readiness delivers only a prefix of the
completed sample, and delivers bytes only once the capture has returned. -/
theorem capture_read_interleaving :
    (∀ (s : kunetik_dev) (rnd : Nat × Nat),
      capture_after s rnd 5 = (ktk_capture_data s rnd).map (fun p => p.2)) ∧
    (∀ (k : kunetik_dev) (rnd : Nat × Nat),
      capture_stmt 0 k rnd = some { k with is_ready := false } ∧
      capture_stmt 4 k rnd = some { k with is_ready := true }) ∧
    (∀ (s : kunetik_dev) (rnd : Nat × Nat) (n : Nat) (k : kunetik_dev),
      1 ≤ n → n ≤ 4 → capture_after s rnd n = some k → k.is_ready = false) ∧
    (∀ (s : kunetik_dev) (rnd : Nat × Nat) (readers : List reader),
      sys_step { kdev := s, cap := 0, rnd := rnd, readers := readers } .capture =
        some { kdev := { s with is_ready := false }, cap := 1, rnd := rnd, readers := readers }) ∧
    (∀ (s : kunetik_dev) (rnd : Nat × Nat) (readers : List reader) (evs : List event)
      (c : config) (rv : Int) (final : kunetik_dev),
      (∀ r ∈ readers, before_test r = true) →
      ktk_capture_data s rnd = some (rv, final) →
      sys_run { kdev := { s with is_ready := false }, cap := 1, rnd := rnd,
                readers := readers } evs = some c →
      ∀ r ∈ c.readers, ∀ (ret : Int) (ubuf : List Nat), r.pc = .done ret ubuf →
        ubuf <+: final.device_data ∧ (ubuf ≠ [] → c.cap = 5 ∧ c.kdev = final)) := by
  refine ⟨capture_after_five, fun _ _ => ⟨rfl, rfl⟩, capture_after_not_ready,
    fun _ _ _ => rfl, ?_⟩
  intro s rnd readers evs c rv final hrd hfin hrun r hr ret ubuf hpc
  have h5 : capture_after s rnd 5 = some final := by
    rw [capture_after_five, hfin]; rfl
  have h0 : safe_inv s rnd
      { kdev := { s with is_ready := false }, cap := 1, rnd := rnd, readers := readers } := by
    refine ⟨rfl, Nat.le_refl 1, by simp, rfl, ?_⟩
    intro r1 hr1
    have hb := hrd r1 hr1
    unfold before_test at hb
    unfold reader_ok
    cases hp : r1.pc with
    | test => trivial
    | asleep => trivial
    | copy => simp [hp] at hb
    | done a b => simp [hp] at hb
  obtain ⟨_, _, _, hpre, hall⟩ := safe_inv_run s rnd evs _ c h0 hrun
  have hok := hall r hr
  unfold reader_ok at hok
  simp only [hpc] at hok
  refine ⟨hok.2 final h5, ?_⟩
  intro hne
  rcases hok.1 with he | he
  · exact absurd he hne
  · refine ⟨he, ?_⟩
    rw [he, h5] at hpre
    exact (Option.some.inj hpre).symm

/-- Witness of C10: after three statements of a capture with bytes (100, 9)
readiness is false; and a blocking read that tests readiness right after that
capture has dropped it sleeps, and once the capture has returned it delivers
the completed sample `[0, 18, 9, 0]`. -/
theorem capture_read_interleaving_witness :
    (1 ≤ 3 ∧ 3 ≤ 4 ∧
      capture_after kdev_sampled (100, 9) 3 =
        some { kdev_sampled with is_ready := false, device_data := [0, 100, 9, 0] } ∧
      ({ kdev_sampled with is_ready := false, device_data := [0, 100, 9, 0] }
        : kunetik_dev).is_ready = false) ∧
    ((∀ r ∈ [({ f := { f_flags := 0 }, room := 4, len := 4, pc := .test } : reader)],
        before_test r = true) ∧
      ktk_capture_data kdev_sampled (100, 9) =
        some (0, { kdev_sampled with device_data := [0, 18, 9, 0] }) ∧
      sys_run { kdev := { kdev_sampled with is_ready := false }, cap := 1, rnd := (100, 9),
                readers := [{ f := { f_flags := 0 }, room := 4, len := 4, pc := .test }] }
          [.read 0, .capture, .capture, .capture, .capture, .read 0, .read 0] =
        some { kdev := { kdev_sampled with device_data := [0, 18, 9, 0] }, cap := 5,
               rnd := (100, 9),
               readers := [{ f := { f_flags := 0 }, room := 4, len := 4,
                             pc := .done 4 [0, 18, 9, 0] }] } ∧
      ([0, 18, 9, 0] <+:
          ({ kdev_sampled with device_data := [0, 18, 9, 0] } : kunetik_dev).device_data ∧
        (([0, 18, 9, 0] : List Nat) ≠ [] →
          (5 : Nat) = 5 ∧
          ({ kdev_sampled with device_data := [0, 18, 9, 0] } : kunetik_dev) =
            { kdev_sampled with device_data := [0, 18, 9, 0] }))) :=
  ⟨⟨by decide, by decide, by decide,
    capture_read_interleaving.2.2.1 kdev_sampled (100, 9) 3
      { kdev_sampled with is_ready := false, device_data := [0, 100, 9, 0] }
      (by decide) (by decide) (by decide)⟩,
   ⟨by decide, by decide, by decide,
    capture_read_interleaving.2.2.2.2 kdev_sampled (100, 9)
      [{ f := { f_flags := 0 }, room := 4, len := 4, pc := .test }]
      [.read 0, .capture, .capture, .capture, .capture, .read 0, .read 0]
      { kdev := { kdev_sampled with device_data := [0, 18, 9, 0] }, cap := 5, rnd := (100, 9),
        readers := [{ f := { f_flags := 0 }, room := 4, len := 4,
                      pc := .done 4 [0, 18, 9, 0] }] }
      0 { kdev_sampled with device_data := [0, 18, 9, 0] }
      (by decide) (by decide) (by decide)
      { f := { f_flags := 0 }, room := 4, len := 4, pc := .done 4 [0, 18, 9, 0] }
      (List.mem_singleton.mpr rfl) 4 [0, 18, 9, 0] rfl⟩⟩

/-- Counterexample to C10 as stated: on a reachable device holding the completed
sample `[0, 36, 77, 0]`, a read passes its readiness test, a capture with
bytes (100, 9) then runs its first three statements, and the read copies
`[0, 100, 9, 0]` and returns 4. What it delivers is neither the previous
sample nor the completed one `[0, 18, 9, 0]`, and its measurement 100 exceeds
the Celsius maximum. -/
theorem read_overlapping_capture_is_torn :
    Reachable kdev_sampled ∧
    ktk_capture_data kdev_sampled (100, 9) =
      some (0, { kdev_sampled with device_data := [0, 18, 9, 0] }) ∧
    (sys_run { kdev := kdev_sampled, cap := 0, rnd := (100, 9),
               readers := [{ f := { f_flags := 0 }, room := 4, len := 4, pc := .test }] }
        [.read 0, .capture, .capture, .capture, .read 0]).map
        (fun c => c.readers.map (fun r => r.pc)) = some [.done 4 [0, 100, 9, 0]] ∧
    ([0, 100, 9, 0] : List Nat) ≠ kdev_sampled.device_data ∧
    ([0, 100, 9, 0] : List Nat) ≠ [0, 18, 9, 0] ∧
    kdev_sampled.max_temp < 100 :=
  ⟨reachable_kdev_sampled, by decide, by decide, by decide, by decide, by decide⟩

/-! ## SetUnit when the copy from the caller faults -/

/-- C11 (the code at the failing inputs): when `kdev_ioctl` handles SetUnit and
`copy_from_user` reports a fault, the `-EFAULT` assigned to `rv` is
overwritten: for every device state the command returns what
`ktk_set_temp_type` returns for the tag left in the uncopied local, which is
never `-EFAULT`. With the local holding 0 the Fahrenheit device becomes
Celsius with range [0, 40] and the command returns 0; with the local holding
1 the fresh device becomes Fahrenheit with range [32, 120] and the command
returns 0; with the local holding 7 the command returns `-EINVAL`. The
GetUnit case of the same switch does return `-EFAULT` when its copy faults. -/
theorem set_unit_fault_is_overwritten :
    (∀ (kdev : kunetik_dev) (room stack : Nat) (rnd : Nat × Nat),
      (copy_from_user stack ({ src := none, room := room } : user_arg).src).1 ≠ 0 ∧
      kdev_ioctl kdev KTK_SET_TEMP_TYPE { src := none, room := room } stack rnd =
        some { rv := (ktk_set_temp_type kdev { type := stack }).1,
               kdev := (ktk_set_temp_type kdev { type := stack }).2, uarg := [] } ∧
      (ktk_set_temp_type kdev { type := stack }).1 ≠ -EFAULT) ∧
    kdev_ioctl kdev_fahrenheit KTK_SET_TEMP_TYPE { src := none, room := 0 } 0 (0, 0) =
      some { rv := 0, kdev := kdev0, uarg := [] } ∧
    (kdev_fahrenheit.temp_type.type, kdev_fahrenheit.min_temp, kdev_fahrenheit.max_temp)
      ≠ (kdev0.temp_type.type, kdev0.min_temp, kdev0.max_temp) ∧
    kdev_ioctl kdev0 KTK_SET_TEMP_TYPE { src := none, room := 0 } 1 (0, 0) =
      some { rv := 0, kdev := kdev_fahrenheit, uarg := [] } ∧
    kdev_ioctl kdev0 KTK_SET_TEMP_TYPE { src := none, room := 0 } 7 (0, 0) =
      some { rv := -EINVAL, kdev := kdev0, uarg := [] } ∧
    kdev_ioctl kdev0 KTK_GET_TEMP_TYPE { src := none, room := 0 } 0 (0, 0) =
      some { rv := -EFAULT, kdev := kdev0, uarg := [] } ∧
    (0 : Int) ≠ -EFAULT ∧ -EINVAL ≠ -EFAULT ∧ -EFAULT = -14 := by
  refine ⟨?_, by decide, by decide, by decide, by decide, by decide, by decide, by decide, rfl⟩
  intro kdev room stack rnd
  refine ⟨by simp [copy_from_user, sizeof_temp_type], ?_, ?_⟩
  · simp [kdev_ioctl, copy_from_user]
  · have h0 : (0 : Int) ≠ -EFAULT := by decide
    have h1 : -EINVAL ≠ -EFAULT := by decide
    unfold ktk_set_temp_type
    split
    · exact h0
    · split
      · exact h0
      · exact h1

end Kunetik
